import Mathlib

/-
  Verification development for the client-side synchronization core of a
  networked tic-tac-toe frontend.

  The definitions below are shallow embeddings of the TypeScript source:
    - time-sync.util.ts            (clock reconciler)
    - game-over handler            (normalizeResult, winner derivation, state effects)
    - board-normalization.util.ts  (normalizeCell, normalizeBoard, checkWinner, isBoardFull)
    - correlation-id-tracker.service.ts (issued/observed tables, pruning)
    - signalr event service        (GameOver dedup wiring)
    - reconnection.logic.ts        (attemptReconnect failure fallback)
    - turn-timer.service.ts        (local-mode setSignals / tick loop)
    - gameover-modal.util.ts       (buildGameOverModal) and game-over-modal service merge

  JavaScript machine integers (millisecond timestamps) are modelled as Int;
  nullable values as Option; JS string truthiness (null / undefined / empty
  string are falsy) is modelled explicitly where the source relies on it.
-/

namespace TTT

/-- JS string truthiness: null, undefined and the empty string are falsy. -/
def strTruthy : Option String → Bool
  | none => false
  | some s => s ≠ ""

/-- Executable model of String.prototype.toLowerCase for the ASCII tokens
this codebase compares (kernel-reducible, unlike String.toLower). -/
def jsToLower (s : String) : String := String.mk (s.data.map Char.toLower)

/-- Executable model of String.prototype.toUpperCase for the ASCII tokens
this codebase compares. -/
def jsToUpper (s : String) : String := String.mk (s.data.map Char.toUpper)

/-- Drop leading and trailing whitespace from a character list. -/
def trimChars (l : List Char) : List Char :=
  ((l.dropWhile Char.isWhitespace).reverse.dropWhile Char.isWhitespace).reverse

/-- Executable model of String.prototype.trim (kernel-reducible, unlike
String.trim). -/
def jsTrim (s : String) : String := String.mk (trimChars s.data)

/- ------------------------------------------------------------------
   Clock reconciler: time-sync.util.ts
   ------------------------------------------------------------------ -/

/-- Integer form of Math.ceil (a / 1000) for millisecond quantities. -/
def ceilDivMs (a : Int) : Int := Int.fdiv (a + 999) 1000

/-- Embedding of calculateRemainingSeconds from time-sync.util.ts for the
case where both timestamps parse. Arguments are the parsed millisecond
values of turnExpiry and serverTimestamp, and the value of Date.now at the
moment of the call. The source computes
  clientClockOffsetMs = Date.now() - serverMs
  remainingMs = expiryMs - serverMs - clientClockOffsetMs
  remaining = Math.max(0, Math.ceil(remainingMs / 1000)). -/
def calculateRemainingSeconds (expiryMs serverMs nowMs : Int) : Int :=
  let clientClockOffsetMs := nowMs - serverMs
  let remainingMs := expiryMs - serverMs - clientClockOffsetMs
  max 0 (ceilDivMs remainingMs)

/-- The serverTimestamp term cancels: the value returned by
calculateRemainingSeconds is exactly ceil of (expiryMs - Date.now) / 1000
clamped at 0, so it depends only on the client clock. -/
theorem calculateRemainingSeconds_ignores_server (expiryMs serverMs nowMs : Int) :
    calculateRemainingSeconds expiryMs serverMs nowMs = max 0 (ceilDivMs (expiryMs - nowMs)) := by
  unfold calculateRemainingSeconds
  ring_nf

/-- C1: the claim says the result is bounded by ceil of
(expiry - serverNow) / 1000 plus one for every value of Date.now, but with
expiry 30 seconds after serverNow and a client clock 61 seconds behind the
server, the code returns 91 seconds, far above the claimed bound of 31.
The cause: the clientClockOffset subtraction cancels the serverTimestamp
term (see calculateRemainingSeconds_ignores_server), so the result is not
clock-offset independent, contradicting the doc comment of the source
function, which promises clock-skew correction. -/
theorem calculateRemainingSeconds_violates_bound :
    calculateRemainingSeconds 31000 1000 (-60000) = 91 ∧
    ¬ (calculateRemainingSeconds 31000 1000 (-60000) ≤ ceilDivMs (31000 - 1000) + 1) := by
  decide

/- ------------------------------------------------------------------
   Game-over result normalization (normalizeResult in the game-over handler)
   ------------------------------------------------------------------ -/

/-- A raw result value as delivered by the server: null, a numeric code, or
a string token. -/
inductive RawResult where
  | rnull : RawResult
  | rnum : Int → RawResult
  | rstr : String → RawResult
deriving DecidableEq

/-- Embedding of normalizeResult from the game-over handler: numeric codes
0..3 map to canonical tokens, recognized string synonyms map
case-insensitively, anything else falls through. -/
def normalizeResult : RawResult → Option String
  | .rnull => none
  | .rnum n =>
      if n = 0 then some "Winner"
      else if n = 1 then some "Forfeit"
      else if n = 2 then some "Draw"
      else if n = 3 then some "Cancelled"
      else some (toString n)
  | .rstr r =>
      if jsTrim r = "" then none
      else if jsToLower (jsTrim r) = "winner" ∨ jsToLower (jsTrim r) = "win" ∨ jsToLower (jsTrim r) = "victory" then
        some "Winner"
      else if jsToLower (jsTrim r) = "forfeit" ∨ jsToLower (jsTrim r) = "forfeited" then some "Forfeit"
      else if jsToLower (jsTrim r) = "draw" ∨ jsToLower (jsTrim r) = "tie" ∨ jsToLower (jsTrim r) = "tiegame" ∨
          jsToLower (jsTrim r) = "drawn" ∨ jsToLower (jsTrim r) = "stalemate" then some "Draw"
      else if jsToLower (jsTrim r) = "cancelled" ∨ jsToLower (jsTrim r) = "cancel" ∨
          jsToLower (jsTrim r) = "canceled" then some "Cancelled"
      else some (jsTrim r)

/-- Restatement of the (amended) specification wording for normalizeResult,
with synonym sets written as list membership and the pass-through case
returning the trimmed string. Used to compare the code against the spec. -/
def normalizeResultSpec : RawResult → Option String
  | .rnull => none
  | .rnum n =>
      if n = 0 then some "Winner"
      else if n = 1 then some "Forfeit"
      else if n = 2 then some "Draw"
      else if n = 3 then some "Cancelled"
      else some (toString n)
  | .rstr r =>
      if jsTrim r = "" then none
      else if jsToLower (jsTrim r) ∈ ["winner", "win", "victory"] then some "Winner"
      else if jsToLower (jsTrim r) ∈ ["forfeit", "forfeited"] then some "Forfeit"
      else if jsToLower (jsTrim r) ∈ ["draw", "tie", "tiegame", "drawn", "stalemate"] then some "Draw"
      else if jsToLower (jsTrim r) ∈ ["cancelled", "cancel", "canceled"] then some "Cancelled"
      else some (jsTrim r)

/-- C4 counterexample: the claim says unrecognized non-empty strings are
returned unchanged, but the source returns the trimmed string: on the
input string with surrounding spaces the output drops those spaces. -/
theorem normalizeResult_not_unchanged :
    normalizeResult (RawResult.rstr " mystery ") = some "mystery" ∧
    normalizeResult (RawResult.rstr " mystery ") ≠ some " mystery " := by
  decide

/-- C4 (amended): normalizeResult maps numeric codes 0, 1, 2, 3 to Winner,
Forfeit, Draw, Cancelled; maps case-insensitive synonyms to the canonical
tokens; returns null for null and for strings that are empty after
trimming; and returns the trimmed string (rather than the original string)
for every unrecognized input. -/
theorem normalizeResult_matches_spec : ∀ r, normalizeResult r = normalizeResultSpec r := by
  intro r
  cases r with
  | rnull => rfl
  | rnum n => rfl
  | rstr s =>
      simp only [normalizeResult, normalizeResultSpec, List.mem_cons, List.mem_singleton,
        List.not_mem_nil, or_false]

/- ------------------------------------------------------------------
   Board normalization: board-normalization.util.ts
   ------------------------------------------------------------------ -/

/-- A raw board cell as delivered by the server: null/undefined, a numeric
code, or a string. -/
inductive RawCell where
  | cnull : RawCell
  | cnum : Int → RawCell
  | cstr : String → RawCell
deriving DecidableEq

/-- Embedding of normalizeCell: 0 and the string 0 are empty, 1/X map to X,
2/O map to O, a final fallback trims and uppercases, otherwise null. For a
number, String(value).toUpperCase() is all digits and never X or O, so
only the numeric comparisons matter. -/
def normalizeCell : RawCell → Option String
  | .cnull => none
  | .cnum n =>
      if n = 0 then none
      else if n = 1 then some "X"
      else if n = 2 then some "O"
      else none
  | .cstr s =>
      if s = "0" then none
      else if s = "1" ∨ jsToUpper s = "X" then some "X"
      else if s = "2" ∨ jsToUpper s = "O" then some "O"
      else if jsToUpper (jsTrim s) = "X" then some "X"
      else if jsToUpper (jsTrim s) = "O" then some "O"
      else none

/-- Embedding of normalizeBoard: always returns exactly nine cells, each
normalized from the raw array when in range, otherwise empty. -/
def normalizeBoard (board : List RawCell) : List (Option String) :=
  (List.range 9).map (fun i =>
    match board.get? i with
    | some c => normalizeCell c
    | none => none)

/-- The eight winning lines checked by checkWinner: three rows, three
columns, two diagonals. -/
def winningLines : List (Nat × Nat × Nat) :=
  [(0, 1, 2), (3, 4, 5), (6, 7, 8), (0, 3, 6), (1, 4, 7), (2, 5, 8), (0, 4, 8), (2, 4, 6)]

/-- JS board indexing: out-of-range access yields undefined, which behaves
like an empty cell in the truthiness test of checkWinner. -/
def cellAt (b : List (Option String)) (i : Nat) : Option String :=
  match b.get? i with
  | some c => c
  | none => none

/-- One line of the checkWinner loop: board[a] truthy and equal to board[b]
and board[c]. -/
def lineWinner (b : List (Option String)) (l : Nat × Nat × Nat) : Option String :=
  match cellAt b l.1 with
  | none => none
  | some s =>
      if s ≠ "" ∧ cellAt b l.2.1 = some s ∧ cellAt b l.2.2 = some s then some s else none

/-- Embedding of checkWinner: return the symbol of the first fully-owned
line, or null. -/
def checkWinner (b : List (Option String)) : Option String :=
  winningLines.findSome? (lineWinner b)

/-- Embedding of isBoardFull: every cell is non-null. -/
def isBoardFull (b : List (Option String)) : Bool :=
  b.all (fun c => c.isSome)

/- ------------------------------------------------------------------
   Winner derivation and draw override in handleGameOver
   ------------------------------------------------------------------ -/

/-- Embedding of the winner-derivation block of handleGameOver: when the
payload winner symbol is falsy and a board snapshot is present, derive the
winner from the normalized snapshot; when no line matches on a full board
and the normalized result is Winner, override the result to Draw. Returns
the pair (derivedWinnerSymbol, result). -/
def deriveWinnerSymbolAndResult (winnerSymbol : Option String)
    (snapshot : Option (List RawCell)) (result : Option String) :
    Option String × Option String :=
  match snapshot with
  | none => (winnerSymbol, result)
  | some raw =>
      if strTruthy winnerSymbol then (winnerSymbol, result)
      else
        match checkWinner (normalizeBoard raw) with
        | some w => (some w, result)
        | none =>
            if isBoardFull (normalizeBoard raw) ∧ result = some "Winner" then
              (winnerSymbol, some "Draw")
            else (winnerSymbol, result)

/-- C3: with no winner side-symbol in the payload and a board snapshot
present, the derived winner symbol is exactly what the eight-line check of
checkWinner reports on the normalized board; and when no line matches on a
full normalized board, a result that normalized to Winner is overridden to
Draw. -/
theorem gameOver_winner_derivation (ws : Option String) (raw : List RawCell)
    (result : Option String) (hw : strTruthy ws = false) :
    (∀ w, checkWinner (normalizeBoard raw) = some w →
        deriveWinnerSymbolAndResult ws (some raw) result = (some w, result)) ∧
    (checkWinner (normalizeBoard raw) = none →
      isBoardFull (normalizeBoard raw) = true →
      result = some "Winner" →
      deriveWinnerSymbolAndResult ws (some raw) result = (ws, some "Draw")) := by
  constructor
  · intro w hwin
    simp [deriveWinnerSymbolAndResult, hw, hwin]
  · intro hnone hfull hres
    simp [deriveWinnerSymbolAndResult, hw, hnone, hfull, hres]

/-- A full board with no three-in-a-row, as raw server cells. -/
def drawRawBoard : List RawCell :=
  [RawCell.cstr "X", RawCell.cstr "O", RawCell.cstr "X",
   RawCell.cstr "X", RawCell.cstr "O", RawCell.cstr "O",
   RawCell.cstr "O", RawCell.cstr "X", RawCell.cstr "X"]

/-- C3 witness: numeric result code 0 normalizes to Winner, and on the full
no-winner board the derivation overrides it to Draw. -/
theorem gameOver_winner_derivation_witness :
    deriveWinnerSymbolAndResult none (some drawRawBoard) (normalizeResult (RawResult.rnum 0)) =
      (none, some "Draw") :=
  (gameOver_winner_derivation none drawRawBoard (normalizeResult (RawResult.rnum 0))
    (by decide)).2 (by decide) (by decide) (by decide)

/- ------------------------------------------------------------------
   Turn timer engine, local mode: turn-timer.service.ts
   ------------------------------------------------------------------ -/

/-- JS expression currentTurn or X: null, undefined and the empty string
fall back to X. -/
def turnOrX : Option String → String
  | none => "X"
  | some s => if s = "" then "X" else s

/-- Embedding of the setSignals closure of startLocalTimer: writes the
shared remaining value into the countdown of the active side and null into
the other, then re-checks defensively that both sides are not set at once,
clearing the non-current side if they are. Returns the pair
(myTurnCountdown, opponentTurnCountdown). -/
def setSignals (currentTurn : Option String) (mySym : Option String) (remaining : Int) :
    Option Int × Option Int :=
  let turn := turnOrX currentTurn
  let pair :=
    if mySym = some "X" then
      if turn = "X" then (some remaining, none) else (none, some remaining)
    else if mySym = some "O" then
      if turn = "O" then (some remaining, none) else (none, some remaining)
    else
      if turn = "X" then (some remaining, none) else (none, some remaining)
  match pair with
  | (some a, some b) => if turn = "X" then (some a, none) else (none, some b)
  | p => p

/-- Embedding of the local tick loop of startLocalTimer: the first entry of
the environment list drives the initial setSignals write with the starting
seconds, and each following entry is one interval tick, which first
decrements the shared counter (clamped at 0) and then writes the signals.
Each environment entry is the pair (currentTurn, mySymbol) read from game
state at that instant. Returns the countdown pair after each write. -/
def localTimerRun : Int → List (Option String × Option String) → List (Option Int × Option Int)
  | _, [] => []
  | r, (t, m) :: rest => setSignals t m r :: localTimerRun (max 0 (r - 1)) rest

/-- After any single setSignals write at most one of the two countdowns is
non-null. -/
theorem setSignals_at_most_one (t m : Option String) (r : Int) :
    (setSignals t m r).1 = none ∨ (setSignals t m r).2 = none := by
  unfold setSignals
  rcases Classical.em (turnOrX t = "X") with ht | ht <;>
    rcases Classical.em (turnOrX t = "O") with ho | ho <;>
    split_ifs <;> simp_all

/-- C9: during local-mode play, after the initial countdown write and after
every subsequent one-second tick, at most one of the pair
(myTurnCountdown, opponentTurnCountdown) is non-null, for every sequence
of observed turn and symbol values. -/
theorem localTimer_at_most_one_countdown (seconds : Int)
    (env : List (Option String × Option String)) (p : Option Int × Option Int)
    (hp : p ∈ localTimerRun seconds env) :
    p.1 = none ∨ p.2 = none := by
  induction env generalizing seconds with
  | nil => simp [localTimerRun] at hp
  | cons e rest ih =>
      rw [localTimerRun] at hp
      rcases List.mem_cons.mp hp with h | h
      · subst h; exact setSignals_at_most_one e.1 e.2 seconds
      · exact ih _ h

/-- C9 witness: a concrete two-step local run (one initial write, one tick)
in which the opponent side is active on the second step. -/
theorem localTimer_at_most_one_countdown_witness :
    ((none : Option Int), (some 29 : Option Int)).1 = none ∨
    ((none : Option Int), (some 29 : Option Int)).2 = none :=
  localTimer_at_most_one_countdown 30 [(some "X", some "X"), (some "O", some "X")]
    (none, some 29) (by decide)

/- ------------------------------------------------------------------
   Correlation tracker: correlation-id-tracker.service.ts
   Each table is a JS Map, modelled as an association list in insertion
   order; Map.set updates an existing key in place, otherwise appends.
   ------------------------------------------------------------------ -/

def MAX_TRACKED_IDS : Nat := 100

def RETENTION_MS : Int := 60000

/-- JS Map.set on the association-list model. -/
def mapSet (m : List (String × Int)) (k : String) (v : Int) : List (String × Int) :=
  if m.any (fun p => p.1 == k) then m.map (fun p => if p.1 == k then (k, v) else p)
  else m ++ [(k, v)]

/-- Embedding of cleanupOldEntries: delete every entry whose timestamp is
strictly older than the retention cutoff. -/
def cleanupOldEntries (now : Int) (m : List (String × Int)) : List (String × Int) :=
  m.filter (fun p => !decide (p.2 < now - RETENTION_MS))

/-- Embedding of recordRpcCorrelationId / recordHubCorrelationId (both run
the same algorithm on their own table): ignore falsy ids, insert with the
current time, and when the table size exceeds the cap run
cleanupOldEntries. -/
def recordCorrelationId (now : Int) (id : String) (m : List (String × Int)) :
    List (String × Int) :=
  if id = "" then m
  else
    let m1 := mapSet m id now
    if m1.length > MAX_TRACKED_IDS then cleanupOldEntries now m1 else m1

/-- Embedding of getLastRpcCorrelationId: scan the table keeping the first
entry with a strictly larger timestamp than any seen so far, starting from
timestamp 0. -/
def getLastRpcCorrelationId (m : List (String × Int)) : Option String :=
  (m.foldl (fun acc p => if p.2 > acc.2 then (some p.1, p.2) else acc)
    ((none : Option String), (0 : Int))).1

set_option maxRecDepth 40000 in
/-- C6 counterexample: one hundred twenty distinct ids recorded at the same
instant all survive, because pruning only removes entries older than the
retention window; the table size reaches 120, exceeding the 100-entry cap,
so the count is not bounded by the cap. -/
theorem tracker_count_exceeds_cap :
    ((List.range 120).foldl (fun m i => recordCorrelationId 0 (toString i) m) []).length = 120 ∧
    ¬ ((List.range 120).foldl (fun m i => recordCorrelationId 0 (toString i) m) []).length ≤
        MAX_TRACKED_IDS := by
  constructor
  · rfl
  · decide

/-- C6 (amended): after any record operation with a non-empty id, either
the table size is within the 100-entry cap, or every surviving entry lies
inside the 60-second retention window ending at the insertion time; the
size itself is unbounded when more than the cap arrive within one window. -/
theorem tracker_prune_invariant (m : List (String × Int)) (id : String) (now : Int)
    (hid : id ≠ "") :
    (recordCorrelationId now id m).length ≤ MAX_TRACKED_IDS ∨
    ∀ p ∈ recordCorrelationId now id m, now - RETENTION_MS ≤ p.2 := by
  unfold recordCorrelationId
  rw [if_neg hid]
  by_cases hl : (mapSet m id now).length > MAX_TRACKED_IDS
  · rw [if_pos hl]
    right
    intro p hp
    have := List.mem_filter.mp hp
    simpa using this.2
  · rw [if_neg hl]
    left
    omega

/-- C6 witness for the amended invariant at a concrete insertion. -/
theorem tracker_prune_invariant_witness :
    (recordCorrelationId 5 "c1" []).length ≤ MAX_TRACKED_IDS ∨
    ∀ p ∈ recordCorrelationId 5 "c1" [], 5 - RETENTION_MS ≤ p.2 :=
  tracker_prune_invariant [] "c1" 5 (by decide)

/- ------------------------------------------------------------------
   Game session state and handleGameOver: game-over handler
   ------------------------------------------------------------------ -/

/-- The GameOver payload after the resolution payload = dto.gameOver or
dto performed at the top of handleGameOver (field reads of the form
payload.x or dto.x collapse onto one record). -/
structure GameOverDto where
  result : RawResult := RawResult.rnull
  winner : Option String := none
  winnerSymbol : Option String := none
  winnerId : Option String := none
  forfeiterId : Option String := none
  boardSnapshot : Option (List RawCell) := none
  currentTurn : Option (Option String) := none
  message : Option String := none
  roomCode : Option String := none
  correlationId : Option String := none
deriving DecidableEq

/-- The mutable session state touched by handleGameOver, together with the
two persisted storage slots and a flag recording that the tick-timer
clearing callback ran. -/
structure GameSessionState where
  disconnectedPlayerId : Option String
  countdownSeconds : Option Int
  board : List RawCell
  currentTurn : Option String
  isGameOver : Bool
  winner : Option String
  myTurnCountdown : Option Int
  opponentTurnCountdown : Option Int
  opponentPresent : Bool
  ticksCleared : Bool
  storedGameCode : Option String
  storedPlayerId : Option String
deriving DecidableEq

/-- Embedding of handleGameOver state effects, in source order: clear the
disconnect UI, apply board and turn when present, force the game-over
flag, set the winner label, clear both per-turn countdowns, clear tick
timers, mark the opponent absent. The stored session slots are not
touched, as the source comment mandates. -/
def handleGameOverState (dto : GameOverDto) (st : GameSessionState) : GameSessionState :=
  let st1 := { st with disconnectedPlayerId := none, countdownSeconds := none }
  let st2 :=
    match dto.boardSnapshot with
    | some b => { st1 with board := b }
    | none => st1
  let st3 :=
    match dto.currentTurn with
    | some t => { st2 with currentTurn := t }
    | none => st2
  let st4 := { st3 with isGameOver := true }
  let winnerLabel :=
    (dto.winner.orElse (fun _ => dto.winnerSymbol)).orElse
      (fun _ => if strTruthy dto.winnerId then dto.winnerId else none)
  let st5 := { st4 with winner := winnerLabel }
  let st6 := { st5 with myTurnCountdown := none, opponentTurnCountdown := none }
  let st7 := { st6 with ticksCleared := true }
  { st7 with opponentPresent := false }

/-- C7: applying a GameOver payload clears the pending disconnect countdown
and both per-turn countdowns, sets the game-over flag, marks the opponent
absent, and leaves both persisted session slots untouched. -/
theorem handleGameOver_effects (dto : GameOverDto) (st : GameSessionState) :
    (handleGameOverState dto st).countdownSeconds = none ∧
    (handleGameOverState dto st).disconnectedPlayerId = none ∧
    (handleGameOverState dto st).myTurnCountdown = none ∧
    (handleGameOverState dto st).opponentTurnCountdown = none ∧
    (handleGameOverState dto st).isGameOver = true ∧
    (handleGameOverState dto st).opponentPresent = false ∧
    (handleGameOverState dto st).storedGameCode = st.storedGameCode ∧
    (handleGameOverState dto st).storedPlayerId = st.storedPlayerId := by
  cases hb : dto.boardSnapshot <;> cases hc : dto.currentTurn <;>
    simp [handleGameOverState, hb, hc]

/- ------------------------------------------------------------------
   GameOver dedup wiring: signalr event service and signalr.events.ts
   ------------------------------------------------------------------ -/

/-- Embedding of the shouldIgnoreGameOver helper: compare the payload
correlation id with the most recent RPC correlation id, treating falsy
values as never matching. -/
def shouldIgnoreGameOver (corr : Option String) (rpcIds : List (String × Int)) : Bool :=
  match corr, getLastRpcCorrelationId rpcIds with
  | some c, some r => if c = "" then false else if r = "" then false else c == r
  | _, _ => false

/-- Result of one hub GameOver delivery: whether the payload was applied,
the observed table afterwards, and the session state afterwards. -/
structure GameOverEventOutcome where
  applied : Bool
  hubIds : List (String × Int)
  state : GameSessionState
deriving DecidableEq

/-- Embedding of the hub GameOver handler: when shouldIgnoreGameOver
reports a duplicate the handler returns at once, so neither the session
state nor the observed table changes; otherwise it applies the payload and
then records the correlation id in the observed table. -/
def onGameOverHubEvent (dto : GameOverDto) (now : Int) (rpcIds hubIds : List (String × Int))
    (st : GameSessionState) : GameOverEventOutcome :=
  if shouldIgnoreGameOver dto.correlationId rpcIds then ⟨false, hubIds, st⟩
  else
    let st2 := handleGameOverState dto st
    let hub2 :=
      match dto.correlationId with
      | some c => recordCorrelationId now c hubIds
      | none => hubIds
    ⟨true, hub2, st2⟩

/-- The pair just set is a member of the map after mapSet. -/
theorem mem_mapSet_self (m : List (String × Int)) (k : String) (v : Int) :
    (k, v) ∈ mapSet m k v := by
  unfold mapSet
  by_cases h : m.any (fun p => p.1 == k)
  · rw [if_pos h]
    obtain ⟨p, hp, hpk⟩ := List.any_eq_true.mp h
    exact List.mem_map.mpr ⟨p, hp, by simp [beq_iff_eq.mp hpk]⟩
  · rw [if_neg h]
    exact List.mem_append_right _ (List.mem_singleton.mpr rfl)

/-- A freshly recorded non-empty id is present in the table afterwards:
the cleanup pass cannot delete it because its timestamp equals the current
time. -/
theorem mem_recordCorrelationId (m : List (String × Int)) (k : String) (now : Int)
    (hk : k ≠ "") : (k, now) ∈ recordCorrelationId now k m := by
  unfold recordCorrelationId
  rw [if_neg hk]
  by_cases hl : (mapSet m k now).length > MAX_TRACKED_IDS
  · rw [if_pos hl]
    refine List.mem_filter.mpr ⟨mem_mapSet_self m k now, ?_⟩
    simp [RETENTION_MS]
  · rw [if_neg hl]
    exact mem_mapSet_self m k now

/-- An arbitrary session state used for the concrete dedup scenarios. -/
def sampleState : GameSessionState :=
  ⟨none, none, [], none, false, none, none, none, true, false, some "ABCD", some "p1"⟩

/-- An issued table holding the ids c1 then c2 from two RPC responses. -/
def issuedTwo : List (String × Int) :=
  recordCorrelationId 2 "c2" (recordCorrelationId 1 "c1" [])

/-- C2 counterexample: with the issued table holding c1 and c2, a GameOver
push carrying c1 - an id recorded from a prior RPC response, though not
the most recent one - is applied rather than skipped; and a push carrying
c2 is skipped but its id is not recorded in the observed table, which
stays empty. Both halves of the claim fail on this input. -/
theorem gameOver_dedup_counterexample :
    ("c1", 1) ∈ issuedTwo ∧
    (onGameOverHubEvent { correlationId := some "c1" } 3 issuedTwo [] sampleState).applied =
      true ∧
    shouldIgnoreGameOver (some "c2") issuedTwo = true ∧
    (onGameOverHubEvent { correlationId := some "c2" } 3 issuedTwo [] sampleState).hubIds =
      [] := by
  decide

/-- C2 (amended): the hub GameOver handler skips exactly when the payload
correlation id matches the single most recent RPC correlation id; a
skipped event changes neither the observed table nor the session state;
and the correlation id is recorded in the observed table precisely when
the event is applied. -/
theorem gameOver_dedup_behavior (dto : GameOverDto) (now : Int)
    (rpcIds hubIds : List (String × Int)) (st : GameSessionState) :
    ((onGameOverHubEvent dto now rpcIds hubIds st).applied = false ↔
      shouldIgnoreGameOver dto.correlationId rpcIds = true) ∧
    (shouldIgnoreGameOver dto.correlationId rpcIds = true →
      onGameOverHubEvent dto now rpcIds hubIds st = ⟨false, hubIds, st⟩) ∧
    (∀ c, shouldIgnoreGameOver dto.correlationId rpcIds = false →
      dto.correlationId = some c → c ≠ "" →
      (c, now) ∈ (onGameOverHubEvent dto now rpcIds hubIds st).hubIds) := by
  refine ⟨?_, ?_, ?_⟩
  · unfold onGameOverHubEvent
    by_cases h : shouldIgnoreGameOver dto.correlationId rpcIds <;> simp [h]
  · intro h
    unfold onGameOverHubEvent
    rw [if_pos h]
  · intro c h hc hcne
    unfold onGameOverHubEvent
    rw [if_neg (by simp [h]), hc]
    simpa using mem_recordCorrelationId hubIds c now hcne

/-- C2 amended witness: the duplicate push with the most recent id c2 is
skipped and leaves the observed table and session state untouched. -/
theorem gameOver_dedup_behavior_witness :
    onGameOverHubEvent { correlationId := some "c2" } 3 issuedTwo [] sampleState =
      ⟨false, [], sampleState⟩ :=
  (gameOver_dedup_behavior { correlationId := some "c2" } 3 issuedTwo [] sampleState).2.1
    (by decide)

/- ------------------------------------------------------------------
   Reconnection fallback: reconnection.logic.ts
   ------------------------------------------------------------------ -/

/-- The value resolved by the Reconnect RPC: a bare boolean, null, or a
response envelope whose success field may be absent. -/
inductive InvokeResult where
  | rbool : Bool → InvokeResult
  | rnull : InvokeResult
  | robj : Option Bool → InvokeResult
deriving DecidableEq

/-- Embedding of the reconnectSucceeded test in attemptReconnect: a literal
true, or a non-null object whose success field is not literally false. -/
def reconnectSucceeded : InvokeResult → Bool
  | .rbool b => b
  | .rnull => false
  | .robj s => s ≠ some false

/-- Observable steps taken by attemptReconnect after the Reconnect RPC
resolves, up to the point where the success path goes on to apply state. -/
inductive ReconnStep where
  | writeGameCode : String → ReconnStep
  | writeStoredGameCode : String → ReconnStep
  | writePlayerId : String → ReconnStep
  | writeStoredPlayerId : String → ReconnStep
  | callJoinGame : String → ReconnStep
  | continueReconnect : ReconnStep
deriving DecidableEq

/-- Whether a step writes the session identifiers into game state or
persistent storage. -/
def isSessionWrite : ReconnStep → Bool
  | .writeGameCode _ => true
  | .writeStoredGameCode _ => true
  | .writePlayerId _ => true
  | .writeStoredPlayerId _ => true
  | _ => false

/-- Embedding of the decision prefix of attemptReconnect: when the RPC
reports failure, fall back to attemptJoinGame with the same code and do
nothing else; when it reports success, store the code and player id into
game state and storage (guarded by truthiness as in the source) and
continue with the state-application tiers. -/
def attemptReconnectPrefix (code playerId : String) (res : InvokeResult) : List ReconnStep :=
  if reconnectSucceeded res then
    (if code ≠ "" then [ReconnStep.writeGameCode code, ReconnStep.writeStoredGameCode code]
     else []) ++
    (if playerId ≠ "" then
      [ReconnStep.writePlayerId playerId, ReconnStep.writeStoredPlayerId playerId]
     else []) ++
    [ReconnStep.continueReconnect]
  else [ReconnStep.callJoinGame code]

/-- C5: a Reconnect response with success false makes the client fall back
to JoinGame with the same room code and perform no session-identifier
write; and in general every session-identifier write in attemptReconnect
happens only when the reconnect succeeded. -/
theorem reconnect_failure_fallback (code playerId : String) :
    (∀ res, reconnectSucceeded res = false →
      attemptReconnectPrefix code playerId res = [ReconnStep.callJoinGame code]) ∧
    reconnectSucceeded (InvokeResult.robj (some false)) = false ∧
    (∀ res s, s ∈ attemptReconnectPrefix code playerId res → isSessionWrite s = true →
      reconnectSucceeded res = true) := by
  refine ⟨?_, by decide, ?_⟩
  · intro res h
    simp [attemptReconnectPrefix, h]
  · intro res s hs hw
    by_cases hr : reconnectSucceeded res
    · exact hr
    · rw [attemptReconnectPrefix, if_neg hr] at hs
      rcases List.mem_singleton.mp hs with rfl
      simp [isSessionWrite] at hw

/-- C5 witness: the concrete scenario from the spec, with room code ABCD
and player id p1 and an envelope with success false. -/
theorem reconnect_failure_fallback_witness :
    attemptReconnectPrefix "ABCD" "p1" (InvokeResult.robj (some false)) =
      [ReconnStep.callJoinGame "ABCD"] :=
  (reconnect_failure_fallback "ABCD" "p1").1 (InvokeResult.robj (some false)) (by decide)

/- ------------------------------------------------------------------
   Game-over modal: gameover-modal.util.ts and game-over-modal.service.ts
   ------------------------------------------------------------------ -/

/-- Embedding of playerIdEquals: true only when both ids are non-null and
equal after string coercion (our model carries ids as strings already). -/
def playerIdEquals : Option String → Option String → Bool
  | some a, some b => a == b
  | _, _ => false

/-- A modal payload: the built fields plus the optional rematch metadata
fields that only the merge step may populate. An outer none models a field
that is absent (undefined) on the object. -/
structure ModalPayload where
  mtype : String
  title : String
  message : String
  code : Option String := none
  offeredByOpponent : Option Bool := none
  rematchOfferedByMe : Option Bool := none
  remainingSeconds : Option (Option Int) := none
deriving DecidableEq

set_option linter.unusedVariables false in
/-- Embedding of buildGameOverModal: normalize the token, derive the modal
type (for Winner, win or loss relative to the local player, preferring
symbol comparison), then pick one of the six fixed title and message
templates. The serverMessage argument is accepted and ignored, as in the
source, whose destructuring drops it. -/
def buildGameOverModal (resultToken winnerSymbol winnerId mySymbol myPlayerId
    serverMessage roomCode : Option String) : ModalPayload :=
  let token := resultToken.getD ""
  let modalType0 :=
    if token = "Winner" then "info"
    else if token = "Forfeit" then "forfeit"
    else if token = "Draw" then "draw"
    else if token = "Cancelled" then "roomExpired"
    else "info"
  let modalType :=
    if token = "Winner" then
      if strTruthy winnerSymbol ∧ strTruthy mySymbol then
        if winnerSymbol = mySymbol then "win" else "loss"
      else if playerIdEquals winnerId myPlayerId then "win"
      else if strTruthy winnerId ∧ strTruthy myPlayerId then "loss"
      else "info"
    else modalType0
  let tm : String × String :=
    if modalType = "win" then ("You won!", "Congratulations! You won the match.")
    else if modalType = "loss" then ("You lost", "Better luck next time!")
    else if modalType = "draw" then ("Draw", "Match ended in a draw.")
    else if modalType = "forfeit" then ("Player forfeited", "Match ended by forfeit.")
    else if modalType = "roomExpired" then ("Match cancelled", "Match cancelled or room expired.")
    else ("Game ended", "Match ended.")
  { mtype := modalType, title := tm.1, message := tm.2, code := roomCode }

/-- Embedding of the rematch-metadata merge in showOnlineGameOverModal:
when a modal is current and defines any of the three rematch fields, the
defined fields override those of the freshly built payload. -/
def mergeRematchMeta (built : ModalPayload) (cur : Option ModalPayload) : ModalPayload :=
  match cur with
  | none => built
  | some c =>
      if c.offeredByOpponent.isSome ∨ c.rematchOfferedByMe.isSome ∨
          c.remainingSeconds.isSome then
        { built with
          offeredByOpponent :=
            if c.offeredByOpponent.isSome then c.offeredByOpponent else built.offeredByOpponent,
          rematchOfferedByMe :=
            if c.rematchOfferedByMe.isSome then c.rematchOfferedByMe
            else built.rematchOfferedByMe,
          remainingSeconds :=
            if c.remainingSeconds.isSome then c.remainingSeconds else built.remainingSeconds }
      else built

/-- C8: whenever the current modal defines a rematch field, the merged
game-over modal carries exactly that value, for each of the three fields;
fields the current modal leaves undefined keep the built value. -/
theorem mergeRematchMeta_preserves (built c : ModalPayload) :
    (∀ v, c.offeredByOpponent = some v →
      (mergeRematchMeta built (some c)).offeredByOpponent = some v) ∧
    (∀ v, c.rematchOfferedByMe = some v →
      (mergeRematchMeta built (some c)).rematchOfferedByMe = some v) ∧
    (∀ v, c.remainingSeconds = some v →
      (mergeRematchMeta built (some c)).remainingSeconds = some v) ∧
    (c.offeredByOpponent = none →
      (mergeRematchMeta built (some c)).offeredByOpponent = built.offeredByOpponent) ∧
    (c.rematchOfferedByMe = none →
      (mergeRematchMeta built (some c)).rematchOfferedByMe = built.rematchOfferedByMe) ∧
    (c.remainingSeconds = none →
      (mergeRematchMeta built (some c)).remainingSeconds = built.remainingSeconds) := by
  rcases ho : c.offeredByOpponent with _ | v1 <;>
    rcases hr : c.rematchOfferedByMe with _ | v2 <;>
      rcases hs : c.remainingSeconds with _ | v3 <;>
        simp [mergeRematchMeta, ho, hr, hs]

/-- C8 witness: a current modal defining an opponent offer and a countdown
survives the arrival of a second termination event. -/
theorem mergeRematchMeta_preserves_witness :
    (mergeRematchMeta (buildGameOverModal (some "Draw") none none none none none none)
      (some { mtype := "draw", title := "Draw", message := "Match ended in a draw.",
              offeredByOpponent := some true,
              remainingSeconds := some (some 12) })).offeredByOpponent = some true :=
  (mergeRematchMeta_preserves (buildGameOverModal (some "Draw") none none none none none none)
    { mtype := "draw", title := "Draw", message := "Match ended in a draw.",
      offeredByOpponent := some true, remainingSeconds := some (some 12) }).1 true rfl

/- ------------------------------------------------------------------
   End-to-end modal output of a hub GameOver payload (noninterference of
   the raw server message)
   ------------------------------------------------------------------ -/

/-- The user-visible modal produced for a GameOver payload: handleGameOver
normalizes the result, derives the winner symbol and the draw override,
and passes the raw server message through to buildGameOverModal, which
discards it and renders only the fixed local templates. -/
def gameOverModalFromDto (dto : GameOverDto) (mySymbol myPlayerId : Option String) :
    ModalPayload :=
  let result := normalizeResult dto.result
  let dr := deriveWinnerSymbolAndResult dto.winnerSymbol dto.boardSnapshot result
  let winnerSymbolArg := if dr.1.isSome then dr.1 else dto.winnerSymbol
  buildGameOverModal dr.2 winnerSymbolArg dto.winnerId mySymbol myPlayerId dto.message
    dto.roomCode

/-- C10: the displayed modal is independent of the raw server message: two
GameOver payloads that differ only in their message field produce exactly
the same modal type, title and text, because the raw message is discarded
and the text comes from the fixed local templates. -/
theorem gameOverModal_independent_of_message (dto : GameOverDto) (m : Option String)
    (mySymbol myPlayerId : Option String) :
    gameOverModalFromDto { dto with message := m } mySymbol myPlayerId =
      gameOverModalFromDto dto mySymbol myPlayerId := rfl

end TTT
